import Mathlib

/-!
Verification development for the `ft_solocendence` Pong backend.

The definitions below are a shallow embedding of `backend/pong/game.py` and
`backend/pong/consumers.py`:

* Python floats are modelled as exact rationals (`ℚ`); scores and round
  counts are natural numbers.
* Trigonometric values produced by `math.cos` / `math.sin` are supplied as
  explicit parameters (for `reset_ball` the cosine and sine of the randomly
  drawn serve angle; for paddle collisions an oracle `cosF`/`sinF` applied to
  the normalized hit position, standing for `cos(hit·π/4)` / `sin(hit·π/4)`).
* Randomness (`random.random`, `random.uniform`, `random.shuffle`,
  `uuid.uuid4`) is passed in as parameters.
* Python `dict`s keyed by strings are modelled as association lists; in-place
  mutation of an object stored in a dict becomes a keyed update of the list.
* Locks, threads, sleeps, metrics counters, logging and channel-layer group
  bookkeeping have no observable effect on the state modelled here and are
  omitted; messages sent directly to a connection are collected into an
  explicit output list.
-/

/-- A Channels channel name (the unique id of one websocket connection). -/
abbrev ConnId := String

/-- A player side, the Python strings `"left"` / `"right"`. -/
inductive Side where
  | left
  | right
deriving DecidableEq

/-- Python truthiness of an optional string: `None` and `""` are falsy. -/
def truthyStr : Option String → Bool
  | none => false
  | some s => !s.isEmpty

/-- Outbound frames sent to a single connection.  Only the fields inspected by
the claims are carried; `tournament_update` frames carry the full
`get_state()` snapshot on the wire, here recorded by tournament id. -/
inductive OutMsg where
  | start_game (message room : String) (rounds : ℕ) (is_tournament : Bool) (player_side : Side)
  | queue_update (message : String)
  | opponent_left (message : String)
  | game_over (score : ℕ) (winner : Side)
  | tournament_error (message : String)
  | tournament_update (tournament_id : String)
  | tournament_left (message : String)
deriving DecidableEq

/-- State of one `PongGame` instance (`backend/pong/game.py`, `__init__`).
The `on_game_over` callback, the lock, the thread handle and the wall-clock
timestamps are not part of the modelled state. -/
structure PongGame where
  room_id : String
  target_rounds : ℕ
  width : ℚ
  height : ℚ
  is_running : Bool
  left_score : ℕ
  right_score : ℕ
  winner : Option Side
  ball_radius : ℚ
  ball_x : ℚ
  ball_y : ℚ
  ball_speed : ℚ
  ball_vx : ℚ
  ball_vy : ℚ
  paddle_width : ℚ
  paddle_height : ℚ
  left_paddle_y : ℚ
  right_paddle_y : ℚ
  paddle_speed : ℚ
  fps : ℚ
  frame_duration : ℚ
  speed_increment : ℚ
  left_player : Option ConnId
  right_player : Option ConnId
deriving DecidableEq

/-- `PongGame.__init__`.  `coin` is the draw `random.random() > 0.5` used for
the initial horizontal direction and `r` the draw `random.random()` used for
the initial vertical velocity. -/
def PongGame.init (room_id : String) (target_rounds : ℕ) (coin : Bool) (r : ℚ) : PongGame :=
  { room_id := room_id
    target_rounds := target_rounds
    width := 800
    height := 450
    is_running := false
    left_score := 0
    right_score := 0
    winner := none
    ball_radius := 10
    ball_x := 800 / 2
    ball_y := 450 / 2
    ball_speed := 5
    ball_vx := 5 * (if coin then 1 else -1)
    ball_vy := 5 * (r - 1/2)
    paddle_width := 15
    paddle_height := 100
    left_paddle_y := (450 - 100) / 2
    right_paddle_y := (450 - 100) / 2
    paddle_speed := 7
    fps := 60
    frame_duration := 1 / 60
    speed_increment := 1/5
    left_player := none
    right_player := none }

/-- `PongGame.add_player`. -/
def PongGame.add_player (g : PongGame) (channel_name : ConnId) (player_side : Option Side) :
    PongGame × Option Side :=
  if player_side = some Side.left ∨ (player_side = none ∧ g.left_player = none) then
    ({ g with left_player := some channel_name }, some Side.left)
  else if player_side = some Side.right ∨ (player_side = none ∧ g.right_player = none) then
    ({ g with right_player := some channel_name }, some Side.right)
  else
    (g, none)

/-- `PongGame.remove_player`. -/
def PongGame.remove_player (g : PongGame) (channel_name : ConnId) : PongGame × Bool :=
  if g.left_player = some channel_name then
    ({ g with left_player := none }, true)
  else if g.right_player = some channel_name then
    ({ g with right_player := none }, true)
  else
    (g, false)

/-- `PongGame.update_paddle`: clamp the requested y into
`[0, height - paddle_height]` and store it on the sender's paddle. -/
def PongGame.update_paddle (g : PongGame) (channel_name : ConnId) (y_position : ℚ) : PongGame :=
  let y := max 0 (min (g.height - g.paddle_height) y_position)
  if g.left_player = some channel_name then
    { g with left_paddle_y := y }
  else if g.right_player = some channel_name then
    { g with right_paddle_y := y }
  else
    g

/-- `PongGame.reset_ball`.  `c` and `s` are `math.cos(angle)` and
`math.sin(angle)` for the angle drawn by `random.uniform(-π/4, π/4)`. -/
def PongGame.reset_ball (c s : ℚ) (g : PongGame) : PongGame :=
  let direction : ℚ := if g.ball_vx < 0 then 1 else -1
  { g with
    ball_x := g.width / 2
    ball_y := g.height / 2
    ball_vx := g.ball_speed * c * direction
    ball_vy := g.ball_speed * s }

/-- `PongGame.check_game_over`: Python evaluates `score >= target_rounds / 2`
with true (real) division, modelled by division in `ℚ`.  The
`on_game_over` callback is not part of the state. -/
def PongGame.check_game_over (g : PongGame) : PongGame :=
  if (g.target_rounds : ℚ) / 2 ≤ (g.left_score : ℚ) then
    { g with winner := some Side.left, is_running := false }
  else if (g.target_rounds : ℚ) / 2 ≤ (g.right_score : ℚ) then
    { g with winner := some Side.right, is_running := false }
  else
    g

/-- `PongGame.check_paddle_collisions`.  `cosF hit` and `sinF hit` stand for
`math.cos(hit·π/4)` and `math.sin(hit·π/4)` where `hit` is the normalized hit
position computed by the source. -/
def PongGame.check_paddle_collisions (cosF sinF : ℚ → ℚ) (g : PongGame) : PongGame :=
  if g.ball_x - g.ball_radius < g.paddle_width ∧
      g.left_paddle_y < g.ball_y ∧ g.ball_y < g.left_paddle_y + g.paddle_height then
    let hit_pos := (g.ball_y - (g.left_paddle_y + g.paddle_height / 2)) / (g.paddle_height / 2)
    let speed := g.ball_speed + g.speed_increment
    { g with
      ball_speed := speed
      ball_vx := |speed * cosF hit_pos|
      ball_vy := speed * sinF hit_pos
      ball_x := g.paddle_width + g.ball_radius }
  else if g.width - g.paddle_width < g.ball_x + g.ball_radius ∧
      g.right_paddle_y < g.ball_y ∧ g.ball_y < g.right_paddle_y + g.paddle_height then
    let hit_pos := (g.ball_y - (g.right_paddle_y + g.paddle_height / 2)) / (g.paddle_height / 2)
    let speed := g.ball_speed + g.speed_increment
    { g with
      ball_speed := speed
      ball_vx := -|speed * cosF hit_pos|
      ball_vy := speed * sinF hit_pos
      ball_x := g.width - g.paddle_width - g.ball_radius }
  else
    g

/-- `PongGame.update`: one frame of the simulation.  `dt` is the elapsed
wall-clock delta; `c`, `s` are the trigonometric values for the serve angle
drawn in `reset_ball` should a point be scored this frame. -/
def PongGame.update (dt c s : ℚ) (cosF sinF : ℚ → ℚ) (g : PongGame) : PongGame :=
  let f := dt / g.frame_duration
  let g1 : PongGame := { g with ball_x := g.ball_x + g.ball_vx * f, ball_y := g.ball_y + g.ball_vy * f }
  let g2 : PongGame :=
    if g1.ball_y - g1.ball_radius < 0 ∨ g1.height < g1.ball_y + g1.ball_radius then
      let gb := { g1 with ball_vy := -g1.ball_vy }
      if gb.ball_y - gb.ball_radius < 0 then
        { gb with ball_y := gb.ball_radius }
      else
        { gb with ball_y := gb.height - gb.ball_radius }
    else g1
  let g3 : PongGame :=
    if g2.ball_x - g2.ball_radius < 0 then
      PongGame.reset_ball c s
        (PongGame.check_game_over { g2 with right_score := g2.right_score + 1 })
    else if g2.width < g2.ball_x + g2.ball_radius then
      PongGame.reset_ball c s
        (PongGame.check_game_over { g2 with left_score := g2.left_score + 1 })
    else g2
  PongGame.check_paddle_collisions cosF sinF g3

/-- The continuation condition of `PongGame.game_loop`'s `while` loop
(line 131 of `game.py`): only `is_running` is consulted, never the player
slots. -/
def PongGame.game_loop_continues (g : PongGame) : Bool :=
  g.is_running

/-- The game-over decision taken by one iteration of
`PongConsumer.game_sync_loop` (consumers.py, lines 1587-1607): once a game is
no longer running, a `game_over` frame carrying the winner's score is
broadcast to the room if and only if a winner is set. -/
def game_sync_emission (g : PongGame) : Option OutMsg :=
  if g.is_running then none
  else
    match g.winner with
    | some Side.left => some (OutMsg.game_over g.left_score Side.left)
    | some Side.right => some (OutMsg.game_over g.right_score Side.right)
    | none => none

/-- State of the `GameManager` (`game.py`, class `GameManager`): the dict
`active_games` (room id → game) and the reverse dict `player_games`
(channel → room id), as association lists with at most one entry per key. -/
structure GMState where
  active_games : List (String × PongGame)
  player_games : List (ConnId × String)
deriving DecidableEq

/-- Write-through of an in-place mutation of the `PongGame` stored under
`room_id` (Python mutates the object held by the dict). -/
def GMState.updGame (l : List (String × PongGame)) (room_id : String) (g : PongGame) :
    List (String × PongGame) :=
  l.map (fun p => if p.1 = room_id then (room_id, g) else p)

/-- Python dict assignment `player_games[ch] = room`: replace the existing
binding or add a new one. -/
def GMState.setPlayerGame (l : List (ConnId × String)) (ch : ConnId) (room : String) :
    List (ConnId × String) :=
  if (l.lookup ch).isSome then
    l.map (fun p => if p.1 = ch then (ch, room) else p)
  else
    (ch, room) :: l

/-- `GameManager.create_game`: idempotent on the room id.  `coin`, `r` are the
random draws consumed by `PongGame.__init__` when a fresh game is created. -/
def GameManager.create_game (gm : GMState) (room_id : String) (target_rounds : ℕ)
    (coin : Bool) (r : ℚ) : GMState × PongGame :=
  match gm.active_games.lookup room_id with
  | some g => (gm, g)
  | none =>
    let g := PongGame.init room_id target_rounds coin r
    ({ gm with active_games := (room_id, g) :: gm.active_games }, g)

/-- `GameManager.add_player_to_game`. -/
def GameManager.add_player_to_game (gm : GMState) (room_id : String) (channel_name : ConnId)
    (player_side : Option Side) : GMState × Option Side :=
  match gm.active_games.lookup room_id with
  | none => (gm, none)
  | some g =>
    let res := PongGame.add_player g channel_name player_side
    let gm1 := { gm with active_games := GMState.updGame gm.active_games room_id res.1 }
    if res.2.isSome then
      ({ gm1 with player_games := GMState.setPlayerGame gm1.player_games channel_name room_id },
       res.2)
    else
      (gm1, res.2)

/-- `GameManager.remove_player_from_game`: detach a player; once both slots
are empty the game is stopped (`is_running := false`) and dropped from
`active_games`. -/
def GameManager.remove_player_from_game (gm : GMState) (channel_name : ConnId) :
    GMState × Bool :=
  match gm.player_games.lookup channel_name with
  | none => (gm, false)
  | some room_id =>
    match gm.active_games.lookup room_id with
    | none => (gm, false)
    | some g =>
      let res := PongGame.remove_player g channel_name
      if res.2 then
        let pg := gm.player_games.filter (fun p => p.1 ≠ channel_name)
        if res.1.left_player = none ∧ res.1.right_player = none then
          let stopped := { res.1 with is_running := false }
          let ag := (GMState.updGame gm.active_games room_id stopped).filter
            (fun p => p.1 ≠ room_id)
          ({ active_games := ag, player_games := pg }, true)
        else
          ({ active_games := GMState.updGame gm.active_games room_id res.1,
             player_games := pg }, true)
      else
        ({ gm with active_games := GMState.updGame gm.active_games room_id res.1 }, false)

/-- `GameManager.update_paddle`. -/
def GameManager.update_paddle (gm : GMState) (channel_name : ConnId) (y_position : ℚ) :
    GMState × Bool :=
  match gm.player_games.lookup channel_name with
  | none => (gm, false)
  | some room_id =>
    match gm.active_games.lookup room_id with
    | none => (gm, false)
    | some g =>
      let g1 := PongGame.update_paddle g channel_name y_position
      ({ gm with active_games := GMState.updGame gm.active_games room_id g1 }, true)

/-- `PongGame.start`: refuse if already running, else raise the running flag
(the spawned worker thread and start timestamp are not modelled). -/
def PongGame.start (g : PongGame) : PongGame × Bool :=
  if g.is_running then (g, false)
  else ({ g with is_running := true }, true)

/-- `GameManager.start_game`: requires both slots truthy, then starts the
engine. -/
def GameManager.start_game (gm : GMState) (room_id : String) : GMState × Bool :=
  match gm.active_games.lookup room_id with
  | none => (gm, false)
  | some g =>
    if truthyStr g.left_player ∧ truthyStr g.right_player then
      let res := PongGame.start g
      ({ gm with active_games := GMState.updGame gm.active_games room_id res.1 }, res.2)
    else
      (gm, false)

/-- One registered tournament player: the dict `{channel, nickname}`. -/
structure Player where
  channel : ConnId
  nickname : String
deriving DecidableEq

/-- One bracket node: the match dict built by `Tournament.create_bracket`.
`next_match` is the `{round, position}` pointer (or `None` for the final). -/
structure BNode where
  id : ℕ
  round : ℕ
  position : ℕ
  player1 : Option String
  player2 : Option String
  player1_channel : Option ConnId
  player2_channel : Option ConnId
  winner : Option String
  next_match : Option (ℕ × ℕ)
deriving DecidableEq

/-- `next((m for m in matches if m["round"]==r and m["position"]==p), None)`. -/
def getNode (ms : List BNode) (key : ℕ × ℕ) : Option BNode :=
  ms.find? (fun m => m.round == key.1 && m.position == key.2)

/-- In-place mutation of the node keyed `(round, position)` (bracket nodes
have pairwise distinct keys, so this updates the one node the source
mutates through its reference). -/
def updNode (ms : List BNode) (key : ℕ × ℕ) (f : BNode → BNode) : List BNode :=
  ms.map (fun m => if m.round == key.1 && m.position == key.2 then f m else m)

/-- `math.ceil(math.log2 n)`: the least `k` with `n ≤ 2^k` (the source only
evaluates this at small player counts, where the float computation is
exact). -/
def ceil_log2 (n : ℕ) : ℕ :=
  (List.range (n + 1)).findIdx (fun k => n ≤ 2 ^ k)

/-- `Tournament.calculate_next_match`. -/
def calculate_next_match (current_round position matches_in_round : ℕ) : Option (ℕ × ℕ) :=
  if matches_in_round ≤ 1 then none
  else some (current_round + 1, position / 2)

/-- State of one `Tournament` object (`consumers.py`, class `Tournament`).
`current_match` holds the `(round, position)` key of the node the Python
object references (the node always comes from `matches`). -/
structure Tournament where
  id : String
  name : String
  creator_channel : ConnId
  size : ℕ
  players : List Player
  started : Bool
  rounds : ℕ
  matches_ : List BNode
  current_match : Option (ℕ × ℕ)
  winner : Option String
deriving DecidableEq

/-- `Tournament.create_bracket`, including the bye handling for player counts
that are not powers of two.  `players` is the already-shuffled list. -/
def Tournament.create_bracket (players : List Player) (rounds : ℕ) : List BNode :=
  let player_count := players.length
  let not_pow2 := player_count.land (player_count - 1) ≠ 0
  let first_round_matches :=
    if not_pow2 then (player_count - (2 ^ rounds - player_count)) / 2
    else player_count / 2
  let final_round := rounds - 1
  -- matches_to_create, generated round by round; the source's stable sort by
  -- round is the identity on this list
  let matches_to_create : List (ℕ × ℕ) :=
    ((List.range rounds).map (fun rn =>
      (List.range (2 ^ (rounds - rn - 1))).map (fun pos => (rn, pos)))).flatten
  let base : List BNode :=
    matches_to_create.enum.map (fun e =>
      let mid := e.1
      let rn := e.2.1
      let pos := e.2.2
      if rn = 0 ∧ pos < first_round_matches then
        match players.get? (pos * 2), players.get? (pos * 2 + 1) with
        | some p1, some p2 =>
          { id := mid, round := rn, position := pos
            player1 := some p1.nickname, player2 := some p2.nickname
            player1_channel := some p1.channel, player2_channel := some p2.channel
            winner := none
            next_match := calculate_next_match rn pos first_round_matches }
        | _, _ =>
          { id := mid, round := rn, position := pos
            player1 := some "TBD", player2 := some "TBD"
            player1_channel := none, player2_channel := none
            winner := none
            next_match := calculate_next_match rn pos first_round_matches }
      else
        let nm := if rn < final_round then
            calculate_next_match rn pos (2 ^ (rounds - rn - 1))
          else none
        { id := mid, round := rn, position := pos
          player1 := none, player2 := none
          player1_channel := none, player2_channel := none
          winner := none, next_match := nm })
  if not_pow2 then
    let bye_players := players.drop (first_round_matches * 2)
    bye_players.enum.foldl (fun acc e =>
      let i := e.1
      let player := e.2
      let pos := i / 2
      match getNode acc (1, pos) with
      | none => acc
      | some nd =>
        if nd.player1.isNone then
          updNode acc (1, pos) (fun m =>
            { m with player1 := some player.nickname, player1_channel := some player.channel })
        else
          updNode acc (1, pos) (fun m =>
            { m with player2 := some player.nickname, player2_channel := some player.channel }))
      base
  else base

/-- A node is selectable by `Tournament.find_next_match`: both nickname and
channel slots truthy and no winner yet. -/
def BNode.ready (m : BNode) : Bool :=
  truthyStr m.player1 && truthyStr m.player2 &&
    truthyStr m.player1_channel && truthyStr m.player2_channel && m.winner.isNone

/-- Stable insertion into a list sorted ascending by `round` (equal rounds
keep their existing order, matching Python's stable `list.sort`). -/
def insertByRound (x : BNode) : List BNode → List BNode
  | [] => [x]
  | y :: ys => if x.round < y.round then x :: y :: ys else y :: insertByRound x ys

/-- Stable sort by `round`. -/
def sortByRound (ms : List BNode) : List BNode :=
  ms.foldl (fun acc x => insertByRound x acc) []

/-- `Tournament.find_next_match`: the earliest-round ready node, ties broken
by list order. -/
def find_next_match (ms : List BNode) : Option BNode :=
  (sortByRound (ms.filter BNode.ready)).head?

/-- `Tournament.advance_tournament`. -/
def Tournament.advance_tournament (t : Tournament) : Tournament × Bool :=
  if t.current_match.isSome then (t, false)
  else
    let final_round := ceil_log2 t.players.length - 1
    let nm : Option BNode :=
      match find_next_match t.matches_ with
      | some m => some m
      | none =>
        let final_matches := t.matches_.filter (fun m =>
          m.round == final_round && m.winner.isNone &&
            truthyStr m.player1 && truthyStr m.player2 &&
            truthyStr m.player1_channel && truthyStr m.player2_channel)
        if final_matches.length = 1 then final_matches.head? else none
    match nm with
    | none =>
      match t.matches_.find? (fun m => m.round == final_round && m.winner.isSome) with
      | some fm => ({ t with winner := fm.winner }, false)
      | none => (t, false)
    | some m =>
      if truthyStr m.player1 && truthyStr m.player2 &&
          truthyStr m.player1_channel && truthyStr m.player2_channel then
        ({ t with current_match := some (m.round, m.position) }, true)
      else
        (t, false)

/-- `Tournament.record_match_result` (state effect and success flag; the
returned notification payload and the 0.5 s `delayed_advance` task — which
can only set `current_match`, never a player slot — are not modelled). -/
def Tournament.record_match_result (t : Tournament) (winner_channel : ConnId) :
    Tournament × Bool :=
  match t.current_match with
  | none => (t, false)
  | some key =>
    match getNode t.matches_ key with
    | none => (t, false)
    | some cm =>
      let is_player1 := cm.player1_channel = some winner_channel
      let is_player2 := cm.player2_channel = some winner_channel
      if ¬(is_player1 ∨ is_player2) then (t, false)
      else
        let winner_nickname := if is_player1 then cm.player1 else cm.player2
        let ms1 := updNode t.matches_ key (fun m => { m with winner := winner_nickname })
        let ms2 :=
          match cm.next_match with
          | none => ms1
          | some nk =>
            match getNode ms1 nk with
            | none => ms1
            | some nmatch =>
              if nmatch.player1.isNone then
                updNode ms1 nk (fun m =>
                  { m with player1 := winner_nickname,
                           player1_channel := some winner_channel })
              else
                updNode ms1 nk (fun m =>
                  { m with player2 := winner_nickname,
                           player2_channel := some winner_channel })
        let t1 := { t with matches_ := ms2, current_match := none }
        let adv := Tournament.advance_tournament t1
        let t3 :=
          if adv.2 = false ∧ adv.1.winner = none then
            match adv.1.matches_.find? (fun m => m.next_match.isNone && m.winner.isSome) with
            | some fm => { adv.1 with winner := fm.winner }
            | none => adv.1
          else adv.1
        (t3, true)

/-- `Tournament.add_player` (join). -/
def Tournament.add_player (t : Tournament) (channel : ConnId) (nickname : String) :
    Tournament × Bool :=
  if t.started then (t, false)
  else if t.players.any (fun p => p.nickname == nickname) then (t, false)
  else if t.players.any (fun p => p.channel == channel) then (t, false)
  else if t.size ≤ t.players.length then (t, false)
  else ({ t with players := t.players ++ [⟨channel, nickname⟩] }, true)

/-- `Tournament.remove_player`: drop the player; if they sat in the current
match of a started tournament, the opposite slot is recorded as winner. -/
def Tournament.remove_player (t : Tournament) (channel : ConnId) : Tournament × Bool :=
  match t.players.find? (fun p => p.channel == channel) with
  | none => (t, false)
  | some ptr =>
    let t1 := { t with players := t.players.erase ptr }
    let t2 :=
      if t1.started ∧ t1.current_match.isSome then
        match t1.current_match with
        | none => t1
        | some key =>
          match getNode t1.matches_ key with
          | none => t1
          | some cm =>
            if cm.player1_channel = some channel ∨ cm.player2_channel = some channel then
              let other := if cm.player1_channel = some channel then cm.player2_channel
                else cm.player1_channel
              match other with
              | some oc => if oc.isEmpty then t1 else (Tournament.record_match_result t1 oc).1
              | none => t1
            else t1
      else t1
    (t2, true)

/-- `Tournament.start_tournament`.  `shuffled` is the post-`random.shuffle`
order of `t.players` (a permutation supplied as a parameter). -/
def Tournament.start_tournament (shuffled : List Player) (t : Tournament) :
    Tournament × Bool :=
  if t.started then (t, false)
  else if ¬(t.players.length = 4 ∨ t.players.length = 6 ∨ t.players.length = 8) then (t, false)
  else if t.players.length % 2 ≠ 0 then (t, false)
  else
    let rounds_needed := ceil_log2 shuffled.length
    let t1 := { t with
      matches_ := Tournament.create_bracket shuffled rounds_needed
      current_match := none
      winner := none
      started := true }
    Tournament.advance_tournament t1

/-- Python dict write `active_tournaments[tid] = t` through the object
reference: update the stored tournament. -/
def updTournament (l : List (String × Tournament)) (tid : String) (t : Tournament) :
    List (String × Tournament) :=
  l.map (fun p => if p.1 = tid then (tid, t) else p)

/-- `PongConsumer.handle_start_tournament`: state effect on the tournament
map and the direct reply/notification frames (the spawned
`start_tournament_match` game launch and the lobby broadcast are out of the
tournament state modelled here). -/
def PongConsumer.handle_start_tournament (tournaments : List (String × Tournament))
    (ch : ConnId) (tournament_id : String) (shuffled : List Player) :
    List (String × Tournament) × List (ConnId × OutMsg) :=
  match tournaments.lookup tournament_id with
  | none => (tournaments, [(ch, OutMsg.tournament_error "Tournament not found")])
  | some t =>
    if ch ≠ t.creator_channel then
      (tournaments,
       [(ch, OutMsg.tournament_error "Only the tournament creator can start the tournament")])
    else
      let res := Tournament.start_tournament shuffled t
      if res.2 = false then
        let player_count := res.1.players.length
        let message :=
          if player_count < 4 then "Cannot start: Need at least 4 players"
          else if ¬(player_count = 4 ∨ player_count = 6 ∨ player_count = 8) then
            "Cannot start: Tournament requires 4, 6, or 8 players"
          else if player_count % 2 ≠ 0 then "Cannot start: Need an even number of players"
          else "Cannot start tournament"
        (updTournament tournaments tournament_id res.1,
         [(ch, OutMsg.tournament_error message)])
      else
        (updTournament tournaments tournament_id res.1,
         res.1.players.map (fun p => (p.channel, OutMsg.tournament_update res.1.id)))

/-- One entry of the global `waiting_players` list: the dict
`{channel, nickname, token, rounds}` appended by the `join` handler. -/
structure QueueEntry where
  channel : ConnId
  nickname : String
  token : String
  rounds : ℕ
deriving DecidableEq

/-- The module-level mutable state of `consumers.py` plus the global
`game_manager`: `waiting_players`, `active_games` (channel → room),
`tournament_players` (channel → tournament id) and `active_tournaments`
(id → tournament). -/
structure ServerState where
  waiting_players : List QueueEntry
  active_games : List (ConnId × String)
  tournament_players : List (ConnId × String)
  active_tournaments : List (String × Tournament)
  gm : GMState
deriving DecidableEq

/-- Python dict assignment `active_games[ch] = room`. -/
def setActiveGame (l : List (ConnId × String)) (ch : ConnId) (room : String) :
    List (ConnId × String) :=
  if (l.lookup ch).isSome then
    l.map (fun p => if p.1 = ch then (ch, room) else p)
  else
    (ch, room) :: l

/-- The `join` branch of `PongConsumer.receive` (consumers.py, lines
785-858).  `self_channel` is the caller's channel, `fresh_room` the
`"game_" + uuid4()` name, `coin`/`r` the random draws for the created game.
The result pairs the new server state with the frames sent directly to
individual connections (the lobby waiting-list broadcast carries no game
state and is not modelled). -/
def PongConsumer.receive_join (st : ServerState) (self_channel : ConnId)
    (nickname token : String) (rounds : ℕ) (fresh_room : String) (coin : Bool) (r : ℚ) :
    ServerState × List (ConnId × OutMsg) :=
  match st.waiting_players.find? (fun p => p.rounds == rounds) with
  | some matching_player =>
    let waiting := st.waiting_players.erase matching_player
    let gm1 := (GameManager.create_game st.gm fresh_room rounds coin r).1
    let gm2 := (GameManager.add_player_to_game gm1 fresh_room matching_player.channel
      (some Side.left)).1
    let gm3 := (GameManager.add_player_to_game gm2 fresh_room self_channel
      (some Side.right)).1
    let ag := setActiveGame (setActiveGame st.active_games self_channel fresh_room)
      matching_player.channel fresh_room
    let game_message := "Game starting between " ++ matching_player.nickname ++ " and "
      ++ nickname
    let gm4 := (GameManager.start_game gm3 fresh_room).1
    ({ st with waiting_players := waiting, active_games := ag, gm := gm4 },
     [(matching_player.channel,
       OutMsg.start_game game_message fresh_room rounds false Side.left),
      (self_channel,
       OutMsg.start_game game_message fresh_room rounds false Side.right)])
  | none =>
    ({ st with waiting_players :=
        st.waiting_players ++ [⟨self_channel, nickname, token, rounds⟩] },
     [(self_channel,
       OutMsg.queue_update ("Waiting for a player... (Round amount: "
         ++ toString rounds ++ ")"))])

/-- `PongConsumer.disconnect` (consumers.py, lines 588-687): prune the
waiting list, run the tournament cleanup branch, then the game-room branch
(notify the opponents still mapped to the same room and drop the mappings).
Lobby broadcasts and channel-group membership are not modelled. -/
def PongConsumer.disconnect (st : ServerState) (ch : ConnId) :
    ServerState × List (ConnId × OutMsg) :=
  let st1 := { st with waiting_players := st.waiting_players.filter (fun p => p.channel ≠ ch) }
  let tstep : ServerState × List (ConnId × OutMsg) :=
    match st1.tournament_players.lookup ch with
    | none => (st1, [])
    | some tid =>
      let inner : ServerState × List (ConnId × OutMsg) :=
        match st1.active_tournaments.lookup tid with
        | none => (st1, [])
        | some t =>
          if t.creator_channel = ch ∧ t.started = false then
            let others := t.players.filter (fun p => p.channel ≠ ch)
            let msgs := others.map (fun p =>
              (p.channel, OutMsg.tournament_left "Tournament has been canceled by the creator."))
            let tp := st1.tournament_players.filter (fun e =>
              ¬ others.any (fun p => p.channel == e.1))
            ({ st1 with
                tournament_players := tp
                active_tournaments := st1.active_tournaments.filter (fun e => e.1 ≠ tid) },
             msgs)
          else
            let res := Tournament.remove_player t ch
            if res.2 then
              let msgs := res.1.players.map (fun p =>
                (p.channel, OutMsg.tournament_update res.1.id))
              if res.1.players = [] then
                ({ st1 with
                    active_tournaments := st1.active_tournaments.filter (fun e => e.1 ≠ tid) },
                 msgs)
              else
                ({ st1 with
                    active_tournaments := updTournament st1.active_tournaments tid res.1 },
                 msgs)
            else
              ({ st1 with
                  active_tournaments := updTournament st1.active_tournaments tid res.1 }, [])
      let st2 := inner.1
      ({ st2 with tournament_players := st2.tournament_players.filter (fun e => e.1 ≠ ch) },
       inner.2)
  let st3 := tstep.1
  let gstep : ServerState × List (ConnId × OutMsg) :=
    match st3.active_games.lookup ch with
    | none => (st3, [])
    | some game_room =>
      let gm := (GameManager.remove_player_from_game st3.gm ch).1
      let others := st3.active_games.filter (fun e => e.2 == game_room && e.1 ≠ ch)
      let msgs := others.map (fun e =>
        (e.1, OutMsg.opponent_left "Your opponent has disconnected."))
      let ag := (st3.active_games.filter (fun e => ¬(e.2 == game_room && e.1 ≠ ch))).filter
        (fun e => e.1 ≠ ch)
      ({ st3 with gm := gm, active_games := ag }, msgs)
  (gstep.1, tstep.2 ++ gstep.2)

/-- Spec-side winning threshold: `⌈target_rounds / 2⌉`, written with natural
division. -/
def winThreshold (target_rounds : ℕ) : ℕ :=
  (target_rounds + 1) / 2

/-- Sample state for the matchmaking-queue analysis: connection `"A"` already
waits with `rounds = 3`. -/
def c2State : ServerState :=
  { waiting_players := [⟨"A", "alice", "tok", 3⟩]
    active_games := []
    tournament_players := []
    active_tournaments := []
    gm := { active_games := [], player_games := [] } }

/-- Sample running game just before the ball crosses the left edge
(`x = 3`, `vx = -5`): the next frame makes the right player score. -/
def c3Game : PongGame :=
  { PongGame.init "room3" 3 true 0 with
      is_running := true, ball_x := 3, ball_vx := -5, ball_y := 225 }

/-- Sample tournament with declared size 8 but only 4 registered players. -/
def c5Tournament : Tournament :=
  { id := "t5", name := "T", creator_channel := "a", size := 8
    players := [⟨"a", "A"⟩, ⟨"b", "B"⟩, ⟨"c", "C"⟩, ⟨"d", "D"⟩]
    started := false, rounds := 3, matches_ := [], current_match := none, winner := none }

/-- Sample running two-player match for the disconnect analysis: the ball is
one frame away from leaving the right edge with `target_rounds = 1`. -/
def c6Game : PongGame :=
  { PongGame.init "g1" 1 true 0 with
      is_running := true, left_player := some "a", right_player := some "b"
      ball_x := 795, ball_vx := 10, ball_y := 225 }

/-- Sample server state holding the running match `c6Game` between
connections `"a"` and `"b"`. -/
def c6State : ServerState :=
  { waiting_players := []
    active_games := [("a", "g1"), ("b", "g1")]
    tournament_players := []
    active_tournaments := []
    gm := { active_games := [("g1", c6Game)], player_games := [("a", "g1"), ("b", "g1")] } }

/-- Sample 6-player tournament (players A-F on channels a-f). -/
def c7Tournament : Tournament :=
  { id := "t7", name := "T", creator_channel := "a", size := 6
    players := [⟨"a", "A"⟩, ⟨"b", "B"⟩, ⟨"c", "C"⟩, ⟨"d", "D"⟩, ⟨"e", "E"⟩, ⟨"f", "F"⟩]
    started := false, rounds := 3, matches_ := [], current_match := none, winner := none }

/-- The 6-player bracket after start, first-round result `A` and first-round
result `C` have been recorded (identity shuffle). -/
def c7After : Tournament :=
  (Tournament.record_match_result
    (Tournament.record_match_result
      (Tournament.start_tournament c7Tournament.players c7Tournament).1 "a").1 "c").1

/-- Sample game with the ball inside the left paddle's rectangle (a paddle
hit occurs on the next collision check). -/
def c10Game : PongGame :=
  { PongGame.init "room10" 3 true 0 with ball_x := 20, ball_y := 200 }

/-- A queue entry with the sample data of the connection `"A"`. -/
def c4Entry : QueueEntry := ⟨"A", "alice", "tok", 3⟩

/-- Sample state for the pairing analysis: `"A"` waits with `rounds = 3`,
and a second connection `"B"` joins with the same rounds value. -/
def c4State : ServerState :=
  { waiting_players := [c4Entry]
    active_games := []
    tournament_players := []
    active_tournaments := []
    gm := { active_games := [], player_games := [] } }

theorem rat_half_le_iff (t s : ℕ) : ((t : ℚ) / 2 ≤ (s : ℚ)) ↔ (winThreshold t ≤ s) := by
  unfold winThreshold
  rw [div_le_iff₀ (by norm_num : (0:ℚ) < 2)]
  constructor
  · intro h
    have h2 : (t : ℚ) ≤ ((s * 2 : ℕ) : ℚ) := by push_cast; linarith
    have := Nat.cast_le.mp h2
    omega
  · intro h
    have h2 : t ≤ s * 2 := by omega
    have h3 : ((t : ℕ) : ℚ) ≤ ((s * 2 : ℕ) : ℚ) := Nat.cast_le.mpr h2
    push_cast at h3
    linarith

/-- C1: for every match with positive `target_rounds`, the engine ends the
game exactly when a side's score reaches `⌈target_rounds / 2⌉`: starting
from a state where neither side has reached the threshold, incrementing one
side's score and running `check_game_over` sets the winner to that side and
clears `is_running` iff the incremented score is at least
`⌈target_rounds / 2⌉` (and leaves the state unchanged otherwise); with
`target_rounds = 3` the game is won at score 2, with `target_rounds = 1` the
first point wins. -/
theorem claim_C1 (g : PongGame) (ht : 1 ≤ g.target_rounds)
    (hl : g.left_score < winThreshold g.target_rounds)
    (hr : g.right_score < winThreshold g.target_rounds) :
    (winThreshold g.target_rounds ≤ g.left_score + 1 →
       PongGame.check_game_over { g with left_score := g.left_score + 1 } =
         { g with left_score := g.left_score + 1, winner := some Side.left,
                  is_running := false })
  ∧ (g.left_score + 1 < winThreshold g.target_rounds →
       PongGame.check_game_over { g with left_score := g.left_score + 1 } =
         { g with left_score := g.left_score + 1 })
  ∧ (winThreshold g.target_rounds ≤ g.right_score + 1 →
       PongGame.check_game_over { g with right_score := g.right_score + 1 } =
         { g with right_score := g.right_score + 1, winner := some Side.right,
                  is_running := false })
  ∧ (g.right_score + 1 < winThreshold g.target_rounds →
       PongGame.check_game_over { g with right_score := g.right_score + 1 } =
         { g with right_score := g.right_score + 1 })
  ∧ winThreshold 3 = 2 ∧ winThreshold 1 = 1 := by
  refine ⟨?_, ?_, ?_, ?_, by decide, by decide⟩
  · intro h
    simp only [PongGame.check_game_over]
    rw [if_pos ((rat_half_le_iff g.target_rounds (g.left_score + 1)).mpr h)]
  · intro h
    simp only [PongGame.check_game_over]
    rw [if_neg, if_neg]
    · intro hc
      exact absurd ((rat_half_le_iff g.target_rounds g.right_score).mp hc) (by omega)
    · intro hc
      exact absurd ((rat_half_le_iff g.target_rounds (g.left_score + 1)).mp hc) (by omega)
  · intro h
    simp only [PongGame.check_game_over]
    rw [if_neg, if_pos ((rat_half_le_iff g.target_rounds (g.right_score + 1)).mpr h)]
    intro hc
    exact absurd ((rat_half_le_iff g.target_rounds g.left_score).mp hc) (by omega)
  · intro h
    simp only [PongGame.check_game_over]
    rw [if_neg, if_neg]
    · intro hc
      exact absurd ((rat_half_le_iff g.target_rounds (g.right_score + 1)).mp hc) (by omega)
    · intro hc
      exact absurd ((rat_half_le_iff g.target_rounds g.left_score).mp hc) (by omega)

/-- Witness for C1: with `target_rounds = 3` and scores 1-1, the left side's
next point ends the game with winner `left`. -/
theorem claim_C1_witness :
    PongGame.check_game_over
        { PongGame.init "room" 3 true 0 with left_score := 1 + 1, right_score := 1 } =
      { PongGame.init "room" 3 true 0 with
          left_score := 1 + 1, right_score := 1,
          winner := some Side.left, is_running := false } := by
  exact (claim_C1 { PongGame.init "room" 3 true 0 with left_score := 1, right_score := 1 }
    (by decide) (by decide) (by decide)).1 (by decide)

/-- C8: `add_player` with no requested side fills the first free slot (left
before right) and returns it, or returns `none` when both slots are taken;
with a requested side it places the connection on exactly that side and
returns it, leaving the other slot unchanged. -/
theorem claim_C8 (g : PongGame) (ch : ConnId) :
    (g.left_player = none →
       PongGame.add_player g ch none = ({ g with left_player := some ch }, some Side.left))
  ∧ (g.left_player ≠ none → g.right_player = none →
       PongGame.add_player g ch none = ({ g with right_player := some ch }, some Side.right))
  ∧ (g.left_player ≠ none → g.right_player ≠ none →
       PongGame.add_player g ch none = (g, none))
  ∧ PongGame.add_player g ch (some Side.left)
      = ({ g with left_player := some ch }, some Side.left)
  ∧ PongGame.add_player g ch (some Side.right)
      = ({ g with right_player := some ch }, some Side.right) := by
  refine ⟨?_, ?_, ?_, ?_, ?_⟩
  · intro h
    simp [PongGame.add_player, h]
  · intro hl hr
    simp [PongGame.add_player, hl, hr]
  · intro hl hr
    simp [PongGame.add_player, hl, hr]
  · simp [PongGame.add_player]
  · simp [PongGame.add_player]

/-- Witness for C8: attaching to a fresh game takes the left slot. -/
theorem claim_C8_witness :
    PongGame.add_player (PongGame.init "room" 3 true 0) "A" none
      = ({ PongGame.init "room" 3 true 0 with left_player := some "A" }, some Side.left) :=
  (claim_C8 (PongGame.init "room" 3 true 0) "A").1 (by decide)

/-- C9: a `game_update` y from a slot owner is clamped into
`[0, height - paddle_height]` (= `[0, 350]`) before being stored, leaving the
other paddle unchanged; `y = 0` and `y = 350` are reachable; input from a
connection owning neither slot leaves the game unchanged (and the manager
ignores channels with no game); the initial paddle positions satisfy the
bounds. -/
theorem claim_C9 (g : PongGame) (ch : ConnId) (y : ℚ)
    (hh : g.height = 450) (hp : g.paddle_height = 100) :
    (g.left_player = some ch →
       (PongGame.update_paddle g ch y).left_paddle_y = max 0 (min 350 y)
       ∧ 0 ≤ (PongGame.update_paddle g ch y).left_paddle_y
       ∧ (PongGame.update_paddle g ch y).left_paddle_y ≤ 350
       ∧ (PongGame.update_paddle g ch y).right_paddle_y = g.right_paddle_y)
  ∧ (g.left_player ≠ some ch → g.right_player = some ch →
       (PongGame.update_paddle g ch y).right_paddle_y = max 0 (min 350 y)
       ∧ 0 ≤ (PongGame.update_paddle g ch y).right_paddle_y
       ∧ (PongGame.update_paddle g ch y).right_paddle_y ≤ 350
       ∧ (PongGame.update_paddle g ch y).left_paddle_y = g.left_paddle_y)
  ∧ (g.left_player ≠ some ch → g.right_player ≠ some ch →
       PongGame.update_paddle g ch y = g)
  ∧ (g.left_player = some ch →
       (PongGame.update_paddle g ch 0).left_paddle_y = 0
       ∧ (PongGame.update_paddle g ch 350).left_paddle_y = 350)
  ∧ (∀ gm0 : GMState, gm0.player_games.lookup ch = none →
       GameManager.update_paddle gm0 ch y = (gm0, false))
  ∧ (∀ room t coin r,
       0 ≤ (PongGame.init room t coin r).left_paddle_y
       ∧ (PongGame.init room t coin r).left_paddle_y ≤ 350
       ∧ 0 ≤ (PongGame.init room t coin r).right_paddle_y
       ∧ (PongGame.init room t coin r).right_paddle_y ≤ 350) := by
  have hb1 : (0:ℚ) ≤ max 0 (min 350 y) := le_max_left 0 (min 350 y)
  have hb2 : max 0 (min 350 y) ≤ 350 :=
    max_le (by norm_num) (min_le_left 350 y)
  have hcl : ∀ z : ℚ, max 0 (min (g.height - g.paddle_height) z) = max 0 (min 350 z) := by
    intro z
    rw [hh, hp]
    norm_num
  refine ⟨?_, ?_, ?_, ?_, ?_, ?_⟩
  · intro h
    have e1 : PongGame.update_paddle g ch y
        = { g with left_paddle_y := max 0 (min 350 y) } := by
      rw [← hcl y]
      simp [PongGame.update_paddle, h]
    rw [e1]
    exact ⟨rfl, hb1, hb2, rfl⟩
  · intro hl hr
    have e1 : PongGame.update_paddle g ch y
        = { g with right_paddle_y := max 0 (min 350 y) } := by
      rw [← hcl y]
      simp [PongGame.update_paddle, hl, hr]
    rw [e1]
    exact ⟨rfl, hb1, hb2, rfl⟩
  · intro hl hr
    simp [PongGame.update_paddle, hl, hr]
  · intro h
    constructor
    · have e1 : PongGame.update_paddle g ch 0
          = { g with left_paddle_y := max 0 (min 350 0) } := by
        rw [← hcl 0]
        simp [PongGame.update_paddle, h]
      rw [e1]
      norm_num
    · have e1 : PongGame.update_paddle g ch 350
          = { g with left_paddle_y := max 0 (min 350 350) } := by
        rw [← hcl 350]
        simp [PongGame.update_paddle, h]
      rw [e1]
      norm_num
  · intro gm0 h
    simp [GameManager.update_paddle, h]
  · intro room t coin r
    refine ⟨?_, ?_, ?_, ?_⟩ <;> norm_num [PongGame.init]

/-- Witness for C9: the owner of the left slot sending `y = 500` has the
paddle stored at the clamped value 350. -/
theorem claim_C9_witness :
    (PongGame.update_paddle { PongGame.init "room" 3 true 0 with left_player := some "L" }
        "L" 500).left_paddle_y = max 0 (min 350 500) :=
  ((claim_C9 { PongGame.init "room" 3 true 0 with left_player := some "L" } "L" 500
    (by decide) (by decide)).1 (by decide)).1

theorem ballSpeed_reset (c s : ℚ) (g : PongGame) :
    (PongGame.reset_ball c s g).ball_speed = g.ball_speed := rfl

theorem speedInc_reset (c s : ℚ) (g : PongGame) :
    (PongGame.reset_ball c s g).speed_increment = g.speed_increment := rfl

theorem ballSpeed_cgo (g : PongGame) :
    (PongGame.check_game_over g).ball_speed = g.ball_speed := by
  unfold PongGame.check_game_over
  split_ifs <;> rfl

theorem speedInc_cgo (g : PongGame) :
    (PongGame.check_game_over g).speed_increment = g.speed_increment := by
  unfold PongGame.check_game_over
  split_ifs <;> rfl

theorem ballSpeed_cpc_ge (cosF sinF : ℚ → ℚ) (g : PongGame)
    (h : 0 ≤ g.speed_increment) :
    g.ball_speed ≤ (PongGame.check_paddle_collisions cosF sinF g).ball_speed := by
  unfold PongGame.check_paddle_collisions
  split_ifs <;> simp <;> linarith

/-- C10: the ball speed starts at 5 with a fixed increment of 0.2, is left
unchanged by `reset_ball` (a scored point does not reset it), grows by
exactly one increment on every paddle hit, and is non-decreasing across any
frame of `update`. -/
theorem claim_C10 :
    (∀ room t coin r, (PongGame.init room t coin r).ball_speed = 5
       ∧ (PongGame.init room t coin r).speed_increment = 1/5)
  ∧ (∀ c s g, (PongGame.reset_ball c s g).ball_speed = g.ball_speed)
  ∧ (∀ cosF sinF g,
       (PongGame.check_paddle_collisions cosF sinF g).ball_speed = g.ball_speed
       ∨ (PongGame.check_paddle_collisions cosF sinF g).ball_speed
           = g.ball_speed + g.speed_increment)
  ∧ (∀ cosF sinF (g : PongGame),
       ((g.ball_x - g.ball_radius < g.paddle_width ∧
           g.left_paddle_y < g.ball_y ∧ g.ball_y < g.left_paddle_y + g.paddle_height) ∨
        (g.width - g.paddle_width < g.ball_x + g.ball_radius ∧
           g.right_paddle_y < g.ball_y ∧ g.ball_y < g.right_paddle_y + g.paddle_height)) →
       (PongGame.check_paddle_collisions cosF sinF g).ball_speed
         = g.ball_speed + g.speed_increment)
  ∧ (∀ dt c s cosF sinF g, 0 ≤ g.speed_increment →
       g.ball_speed ≤ (PongGame.update dt c s cosF sinF g).ball_speed) := by
  refine ⟨fun room t coin r => ⟨rfl, rfl⟩, fun c s g => rfl, ?_, ?_, ?_⟩
  · intro cosF sinF g
    unfold PongGame.check_paddle_collisions
    split_ifs <;> simp
  · intro cosF sinF g h
    unfold PongGame.check_paddle_collisions
    split_ifs with h1 h2
    · simp
    · simp
    · exact absurd h (by tauto)
  · intro dt c s cosF sinF g hinc
    simp only [PongGame.update]
    have main : ∀ X : PongGame, X.ball_speed = g.ball_speed →
        X.speed_increment = g.speed_increment →
        g.ball_speed ≤ (PongGame.check_paddle_collisions cosF sinF X).ball_speed := by
      intro X h1 h2
      have hX := ballSpeed_cpc_ge cosF sinF X (by rw [h2]; exact hinc)
      rw [← h1]
      exact hX
    apply main <;> split_ifs <;>
      simp [ballSpeed_reset, ballSpeed_cgo, speedInc_reset, speedInc_cgo]

/-- Witness for C10: a concrete paddle hit raises the speed by exactly one
increment, and one frame of `update` on that state does not decrease the
speed. -/
theorem claim_C10_witness :
    (PongGame.check_paddle_collisions (fun _ => 1) (fun _ => 0) c10Game).ball_speed
      = c10Game.ball_speed + c10Game.speed_increment
    ∧ c10Game.ball_speed
        ≤ (PongGame.update (1/60) 1 0 (fun _ => 1) (fun _ => 0) c10Game).ball_speed :=
  ⟨claim_C10.2.2.2.1 (fun _ => 1) (fun _ => 0) c10Game
     (Or.inl (by norm_num [c10Game, PongGame.init])),
   claim_C10.2.2.2.2 (1/60) 1 0 (fun _ => 1) (fun _ => 0) c10Game
     (by norm_num [c10Game, PongGame.init])⟩

/-- C2 (failing input): the `join` handler performs no duplicate check on the
waiting list.  A second `join` from the already-queued connection `"A"` with
the same rounds value pairs `"A"` with its own entry — the created match has
`"A"` in both slots — and a second `join` with a different rounds value
appends a second waiting entry for `"A"`.  This refutes the claimed
at-most-one-entry invariant and the never-self-pairs property. -/
theorem claim_C2_bug :
    ((PongConsumer.receive_join c2State "A" "alice" "tok" 3 "room1" true 0).1.gm.active_games.lookup
        "room1").map (fun g => (g.left_player, g.right_player))
      = some (some "A", some "A")
  ∧ (PongConsumer.receive_join c2State "A" "alice" "tok" 5 "room2" true 0).1.waiting_players
      = [⟨"A", "alice", "tok", 3⟩, ⟨"A", "alice", "tok", 5⟩] := by
  exact ⟨rfl, rfl⟩

/-- C3 (failing input): with the ball one frame from the left edge
(`c3Game.ball_vx = -5 < 0`), the next `update` lets the right player score,
yet `reset_ball` serves with `ball_vx = +5 > 0`, i.e. toward the right
edge — toward the scoring right player and away from the conceding left
side, contradicting both the claim and the source's own comment. -/
theorem claim_C3_bug :
    (PongGame.update (1/60) 1 0 (fun _ => 1) (fun _ => 0) c3Game).right_score = 1
  ∧ (PongGame.update (1/60) 1 0 (fun _ => 1) (fun _ => 0) c3Game).ball_vx = 5
  ∧ c3Game.ball_vx < 0 := by
  refine ⟨?_, ?_, by norm_num [c3Game, PongGame.init]⟩ <;>
    norm_num [PongGame.update, PongGame.check_game_over, PongGame.reset_ball,
      PongGame.check_paddle_collisions, c3Game, PongGame.init]

theorem truthyStr_some {s : String} (h : s ≠ "") : truthyStr (some s) = true := by
  have he : s.isEmpty = false := by
    rw [Bool.eq_false_iff]
    intro hx
    exact h ((String.isEmpty_iff s).mp hx)
  simp [truthyStr, he]

theorem truthyStr_none : truthyStr none = false := rfl

theorem exists_len4 {α : Type} {l : List α} (h : l.length = 4) :
    ∃ a b c d, l = [a, b, c, d] := by
  rcases l with _ | ⟨a, _ | ⟨b, _ | ⟨c, _ | ⟨d, _ | ⟨e, tl⟩⟩⟩⟩⟩ <;>
      simp only [List.length_cons, List.length_nil] at h
  all_goals first
    | exact ⟨_, _, _, _, rfl⟩
    | omega

theorem exists_len6 {α : Type} {l : List α} (h : l.length = 6) :
    ∃ a b c d e f, l = [a, b, c, d, e, f] := by
  rcases l with _ | ⟨a, _ | ⟨b, _ | ⟨c, _ | ⟨d, _ | ⟨e, _ | ⟨f, _ | ⟨x, tl⟩⟩⟩⟩⟩⟩⟩ <;>
      simp only [List.length_cons, List.length_nil] at h
  all_goals first
    | exact ⟨_, _, _, _, _, _, rfl⟩
    | omega

theorem exists_len8 {α : Type} {l : List α} (h : l.length = 8) :
    ∃ a b c d e f u v, l = [a, b, c, d, e, f, u, v] := by
  rcases l with
    _ | ⟨a, _ | ⟨b, _ | ⟨c, _ | ⟨d, _ | ⟨e, _ | ⟨f, _ | ⟨u, _ | ⟨v, _ | ⟨x, tl⟩⟩⟩⟩⟩⟩⟩⟩⟩ <;>
      simp only [List.length_cons, List.length_nil] at h
  all_goals first
    | exact ⟨_, _, _, _, _, _, _, _, rfl⟩
    | omega

/-- C5 (counterexample): a tournament with declared size 8 but only 4
registered players is NOT rejected: `start_tournament` succeeds, the started
flag is raised, and the handler replies with `tournament_update` frames
instead of a `tournament_error`. -/
theorem claim_C5_counterexample :
    (Tournament.start_tournament c5Tournament.players c5Tournament).2 = true
  ∧ (Tournament.start_tournament c5Tournament.players c5Tournament).1.started = true
  ∧ (PongConsumer.handle_start_tournament [("t5", c5Tournament)] "a" "t5"
        c5Tournament.players).2
      = [("a", OutMsg.tournament_update "t5"), ("b", OutMsg.tournament_update "t5"),
         ("c", OutMsg.tournament_update "t5"), ("d", OutMsg.tournament_update "t5")] := by
  exact ⟨rfl, rfl, rfl⟩

set_option maxHeartbeats 1000000 in
/-- C5 (amended): `start_tournament` is rejected — state unchanged and a
`tournament_error` reply sent by the handler — iff the tournament has already
started or the registered player count lies outside {4, 6, 8}; the declared
size is never compared against the count, so any not-started tournament with
exactly 4, 6 or 8 registered players (whose nicknames and channels are
non-empty) starts successfully, even when the count differs from the
declared size. -/
theorem claim_C5_amended (t : Tournament) (shuffled : List Player)
    (hlen : shuffled.length = t.players.length) :
    (t.started = true → Tournament.start_tournament shuffled t = (t, false))
  ∧ (¬(t.players.length = 4 ∨ t.players.length = 6 ∨ t.players.length = 8) →
       Tournament.start_tournament shuffled t = (t, false))
  ∧ (∀ (tournaments : List (String × Tournament)) (tid : String),
       tournaments.lookup tid = some t →
       (Tournament.start_tournament shuffled t).2 = false →
       ∃ msg, (PongConsumer.handle_start_tournament tournaments t.creator_channel tid
           shuffled).2
         = [(t.creator_channel, OutMsg.tournament_error msg)])
  ∧ (t.started = false →
       (t.players.length = 4 ∨ t.players.length = 6 ∨ t.players.length = 8) →
       (∀ p ∈ shuffled, p.nickname ≠ "" ∧ p.channel ≠ "") →
       (Tournament.start_tournament shuffled t).2 = true
       ∧ (Tournament.start_tournament shuffled t).1.started = true
       ∧ (Tournament.start_tournament shuffled t).1.matches_ ≠ []) := by
  refine ⟨?_, ?_, ?_, ?_⟩
  · intro h
    simp [Tournament.start_tournament, h]
  · intro h
    by_cases hs : t.started
    · simp [Tournament.start_tournament, hs]
    · simp [Tournament.start_tournament, hs, h]
  · intro tournaments tid hlk hfail
    unfold PongConsumer.handle_start_tournament
    rw [hlk]
    simp [hfail]
  · intro hns hcount hok
    rcases hcount with h4 | h6 | h8
    · obtain ⟨q1, q2, q3, q4, rfl⟩ := exists_len4 (hlen.trans h4)
      have hq1n := truthyStr_some (hok q1 (by simp)).1
      have hq1c := truthyStr_some (hok q1 (by simp)).2
      have hq2n := truthyStr_some (hok q2 (by simp)).1
      have hq2c := truthyStr_some (hok q2 (by simp)).2
      have hq3n := truthyStr_some (hok q3 (by simp)).1
      have hq3c := truthyStr_some (hok q3 (by simp)).2
      have hq4n := truthyStr_some (hok q4 (by simp)).1
      have hq4c := truthyStr_some (hok q4 (by simp)).2
      have hc : ceil_log2 ([q1, q2, q3, q4] : List Player).length = 2 := rfl
      have hmt : (((List.range 2).map (fun rn =>
            (List.range (2 ^ (2 - rn - 1))).map (fun pos => (rn, pos)))).flatten
            : List (ℕ × ℕ)).enum
          = [(0, (0, 0)), (1, (0, 1)), (2, (1, 0))] := rfl
      have hb : Tournament.create_bracket [q1, q2, q3, q4] 2
          = [⟨0, 0, 0, some q1.nickname, some q2.nickname,
                some q1.channel, some q2.channel, none, some (1, 0)⟩,
             ⟨1, 0, 1, some q3.nickname, some q4.nickname,
                some q3.channel, some q4.channel, none, some (1, 0)⟩,
             ⟨2, 1, 0, none, none, none, none, none, none⟩] := by
        have hld : Nat.land 4 3 = 0 := by decide
        simp only [Tournament.create_bracket, List.length_cons, List.length_nil, hld, hmt,
          calculate_next_match]
        norm_num
      have hstep : Tournament.start_tournament [q1, q2, q3, q4] t
          = Tournament.advance_tournament { t with
              matches_ :=
                [⟨0, 0, 0, some q1.nickname, some q2.nickname,
                    some q1.channel, some q2.channel, none, some (1, 0)⟩,
                 ⟨1, 0, 1, some q3.nickname, some q4.nickname,
                    some q3.channel, some q4.channel, none, some (1, 0)⟩,
                 ⟨2, 1, 0, none, none, none, none, none, none⟩]
              current_match := none
              winner := none
              started := true } := by
        unfold Tournament.start_tournament
        rw [if_neg (by simp [hns]), if_neg (by simp [h4]), if_neg (by simp [h4])]
        show Tournament.advance_tournament { t with
            matches_ := Tournament.create_bracket [q1, q2, q3, q4]
              (ceil_log2 ([q1, q2, q3, q4] : List Player).length)
            current_match := none
            winner := none
            started := true } = _
        rw [hc, hb]
      rw [hstep]
      refine ⟨?_, ?_, ?_⟩ <;>
        simp [Tournament.advance_tournament, find_next_match, BNode.ready, truthyStr_none,
          sortByRound, insertByRound, hq1n, hq1c, hq2n, hq2c, hq3n, hq3c, hq4n, hq4c]
    · obtain ⟨q1, q2, q3, q4, q5, q6, rfl⟩ := exists_len6 (hlen.trans h6)
      have hq1n := truthyStr_some (hok q1 (by simp)).1
      have hq1c := truthyStr_some (hok q1 (by simp)).2
      have hq2n := truthyStr_some (hok q2 (by simp)).1
      have hq2c := truthyStr_some (hok q2 (by simp)).2
      have hq3n := truthyStr_some (hok q3 (by simp)).1
      have hq3c := truthyStr_some (hok q3 (by simp)).2
      have hq4n := truthyStr_some (hok q4 (by simp)).1
      have hq4c := truthyStr_some (hok q4 (by simp)).2
      have hq5n := truthyStr_some (hok q5 (by simp)).1
      have hq5c := truthyStr_some (hok q5 (by simp)).2
      have hq6n := truthyStr_some (hok q6 (by simp)).1
      have hq6c := truthyStr_some (hok q6 (by simp)).2
      have hc : ceil_log2 ([q1, q2, q3, q4, q5, q6] : List Player).length = 3 := rfl
      have hmt : (((List.range 3).map (fun rn =>
            (List.range (2 ^ (3 - rn - 1))).map (fun pos => (rn, pos)))).flatten
            : List (ℕ × ℕ)).enum
          = [(0, (0, 0)), (1, (0, 1)), (2, (0, 2)), (3, (0, 3)),
             (4, (1, 0)), (5, (1, 1)), (6, (2, 0))] := rfl
      have henum : ([q5, q6] : List Player).enum = [(0, q5), (1, q6)] := rfl
      have hb : Tournament.create_bracket [q1, q2, q3, q4, q5, q6] 3
          = [⟨0, 0, 0, some q1.nickname, some q2.nickname,
                some q1.channel, some q2.channel, none, some (1, 0)⟩,
             ⟨1, 0, 1, some q3.nickname, some q4.nickname,
                some q3.channel, some q4.channel, none, some (1, 0)⟩,
             ⟨2, 0, 2, none, none, none, none, none, some (1, 1)⟩,
             ⟨3, 0, 3, none, none, none, none, none, some (1, 1)⟩,
             ⟨4, 1, 0, some q5.nickname, some q6.nickname,
                some q5.channel, some q6.channel, none, some (2, 0)⟩,
             ⟨5, 1, 1, none, none, none, none, none, some (2, 0)⟩,
             ⟨6, 2, 0, none, none, none, none, none, none⟩] := by
        have hld : Nat.land 6 5 = 4 := by decide
        simp only [Tournament.create_bracket, List.length_cons, List.length_nil, hld, hmt,
          calculate_next_match]
        norm_num [henum, getNode, updNode, List.foldl_cons, List.foldl_nil, List.find?]
        rfl
      have hstep : Tournament.start_tournament [q1, q2, q3, q4, q5, q6] t
          = Tournament.advance_tournament { t with
              matches_ :=
                [⟨0, 0, 0, some q1.nickname, some q2.nickname,
                    some q1.channel, some q2.channel, none, some (1, 0)⟩,
                 ⟨1, 0, 1, some q3.nickname, some q4.nickname,
                    some q3.channel, some q4.channel, none, some (1, 0)⟩,
                 ⟨2, 0, 2, none, none, none, none, none, some (1, 1)⟩,
                 ⟨3, 0, 3, none, none, none, none, none, some (1, 1)⟩,
                 ⟨4, 1, 0, some q5.nickname, some q6.nickname,
                    some q5.channel, some q6.channel, none, some (2, 0)⟩,
                 ⟨5, 1, 1, none, none, none, none, none, some (2, 0)⟩,
                 ⟨6, 2, 0, none, none, none, none, none, none⟩]
              current_match := none
              winner := none
              started := true } := by
        unfold Tournament.start_tournament
        rw [if_neg (by simp [hns]), if_neg (by simp [h6]), if_neg (by simp [h6])]
        show Tournament.advance_tournament { t with
            matches_ := Tournament.create_bracket [q1, q2, q3, q4, q5, q6]
              (ceil_log2 ([q1, q2, q3, q4, q5, q6] : List Player).length)
            current_match := none
            winner := none
            started := true } = _
        rw [hc, hb]
      rw [hstep]
      refine ⟨?_, ?_, ?_⟩ <;>
        simp [Tournament.advance_tournament, find_next_match, BNode.ready, truthyStr_none,
          sortByRound, insertByRound, hq1n, hq1c, hq2n, hq2c, hq3n, hq3c, hq4n, hq4c,
          hq5n, hq5c, hq6n, hq6c]
    · obtain ⟨q1, q2, q3, q4, q5, q6, q7, q8, rfl⟩ := exists_len8 (hlen.trans h8)
      have hq1n := truthyStr_some (hok q1 (by simp)).1
      have hq1c := truthyStr_some (hok q1 (by simp)).2
      have hq2n := truthyStr_some (hok q2 (by simp)).1
      have hq2c := truthyStr_some (hok q2 (by simp)).2
      have hq3n := truthyStr_some (hok q3 (by simp)).1
      have hq3c := truthyStr_some (hok q3 (by simp)).2
      have hq4n := truthyStr_some (hok q4 (by simp)).1
      have hq4c := truthyStr_some (hok q4 (by simp)).2
      have hq5n := truthyStr_some (hok q5 (by simp)).1
      have hq5c := truthyStr_some (hok q5 (by simp)).2
      have hq6n := truthyStr_some (hok q6 (by simp)).1
      have hq6c := truthyStr_some (hok q6 (by simp)).2
      have hq7n := truthyStr_some (hok q7 (by simp)).1
      have hq7c := truthyStr_some (hok q7 (by simp)).2
      have hq8n := truthyStr_some (hok q8 (by simp)).1
      have hq8c := truthyStr_some (hok q8 (by simp)).2
      have hc : ceil_log2 ([q1, q2, q3, q4, q5, q6, q7, q8] : List Player).length = 3 := rfl
      have hmt : (((List.range 3).map (fun rn =>
            (List.range (2 ^ (3 - rn - 1))).map (fun pos => (rn, pos)))).flatten
            : List (ℕ × ℕ)).enum
          = [(0, (0, 0)), (1, (0, 1)), (2, (0, 2)), (3, (0, 3)),
             (4, (1, 0)), (5, (1, 1)), (6, (2, 0))] := rfl
      have hb : Tournament.create_bracket [q1, q2, q3, q4, q5, q6, q7, q8] 3
          = [⟨0, 0, 0, some q1.nickname, some q2.nickname,
                some q1.channel, some q2.channel, none, some (1, 0)⟩,
             ⟨1, 0, 1, some q3.nickname, some q4.nickname,
                some q3.channel, some q4.channel, none, some (1, 0)⟩,
             ⟨2, 0, 2, some q5.nickname, some q6.nickname,
                some q5.channel, some q6.channel, none, some (1, 1)⟩,
             ⟨3, 0, 3, some q7.nickname, some q8.nickname,
                some q7.channel, some q8.channel, none, some (1, 1)⟩,
             ⟨4, 1, 0, none, none, none, none, none, some (2, 0)⟩,
             ⟨5, 1, 1, none, none, none, none, none, some (2, 0)⟩,
             ⟨6, 2, 0, none, none, none, none, none, none⟩] := by
        have hld : Nat.land 8 7 = 0 := by decide
        simp only [Tournament.create_bracket, List.length_cons, List.length_nil, hld, hmt,
          calculate_next_match]
        norm_num
      have hstep : Tournament.start_tournament [q1, q2, q3, q4, q5, q6, q7, q8] t
          = Tournament.advance_tournament { t with
              matches_ :=
                [⟨0, 0, 0, some q1.nickname, some q2.nickname,
                    some q1.channel, some q2.channel, none, some (1, 0)⟩,
                 ⟨1, 0, 1, some q3.nickname, some q4.nickname,
                    some q3.channel, some q4.channel, none, some (1, 0)⟩,
                 ⟨2, 0, 2, some q5.nickname, some q6.nickname,
                    some q5.channel, some q6.channel, none, some (1, 1)⟩,
                 ⟨3, 0, 3, some q7.nickname, some q8.nickname,
                    some q7.channel, some q8.channel, none, some (1, 1)⟩,
                 ⟨4, 1, 0, none, none, none, none, none, some (2, 0)⟩,
                 ⟨5, 1, 1, none, none, none, none, none, some (2, 0)⟩,
                 ⟨6, 2, 0, none, none, none, none, none, none⟩]
              current_match := none
              winner := none
              started := true } := by
        unfold Tournament.start_tournament
        rw [if_neg (by simp [hns]), if_neg (by simp [h8]), if_neg (by simp [h8])]
        show Tournament.advance_tournament { t with
            matches_ := Tournament.create_bracket [q1, q2, q3, q4, q5, q6, q7, q8]
              (ceil_log2 ([q1, q2, q3, q4, q5, q6, q7, q8] : List Player).length)
            current_match := none
            winner := none
            started := true } = _
        rw [hc, hb]
      rw [hstep]
      refine ⟨?_, ?_, ?_⟩ <;>
        simp [Tournament.advance_tournament, find_next_match, BNode.ready, truthyStr_none,
          sortByRound, insertByRound, hq1n, hq1c, hq2n, hq2c, hq3n, hq3c, hq4n, hq4c,
          hq5n, hq5c, hq6n, hq6c, hq7n, hq7c, hq8n, hq8c]

/-- Witness for the amended C5: the size-8 tournament with 4 registered
players starts successfully. -/
theorem claim_C5_witness :
    (Tournament.start_tournament c5Tournament.players c5Tournament).2 = true
  ∧ (Tournament.start_tournament c5Tournament.players c5Tournament).1.started = true
  ∧ (Tournament.start_tournament c5Tournament.players c5Tournament).1.matches_ ≠ [] :=
  (claim_C5_amended c5Tournament c5Tournament.players rfl).2.2.2 rfl (Or.inl rfl) (by decide)

/-- C7 (failing input): in the 6-player tournament both bye players E and F
prefill the two slots of round-1 node (1,0).  Recording the round-0 results
(winner A of node (0,0), then winner C of node (0,1)) overwrites slot 2 of
node (1,0) each time: first F is replaced by A, then A by C.  Afterwards the
completed node (0,0) has winner A and `next` (1,0), yet A appears in neither
slot of node (1,0) — the claimed propagation law fails. -/
theorem claim_C7_bug :
    (getNode c7After.matches_ (0, 0)).map (fun m => (m.winner, m.next_match))
      = some (some "A", some (1, 0))
  ∧ (getNode c7After.matches_ (0, 1)).map (fun m => (m.winner, m.next_match))
      = some (some "C", some (1, 0))
  ∧ (getNode c7After.matches_ (1, 0)).map (fun m => (m.player1, m.player2))
      = some (some "E", some "C") := by
  exact ⟨rfl, rfl, rfl⟩

theorem lookup_cons_self {β : Type} (k : String) (v : β) (l : List (String × β)) :
    ((k, v) :: l).lookup k = some v := by
  simp [List.lookup]

theorem updGame_lookup_none (l : List (String × PongGame)) (room : String) (g : PongGame)
    (h : l.lookup room = none) : GMState.updGame l room g = l := by
  induction l with
  | nil => rfl
  | cons a tl ih =>
    obtain ⟨k, w⟩ := a
    rw [List.lookup] at h
    by_cases hk : k = room
    · subst hk
      simp at h
    · have hb : (room == k) = false := by simp [Ne.symm hk]
      rw [hb] at h
      unfold GMState.updGame at ih ⊢
      simp only [List.map_cons, if_neg hk]
      rw [ih h]

theorem updGame_cons_self (room : String) (g0 g : PongGame) (tl : List (String × PongGame))
    (h : tl.lookup room = none) :
    GMState.updGame ((room, g0) :: tl) room g = (room, g) :: tl := by
  have htl : GMState.updGame tl room g = tl := updGame_lookup_none tl room g h
  unfold GMState.updGame at htl ⊢
  rw [List.map_cons, htl, if_pos rfl]

theorem find?_rounds_first (pre post : List QueueEntry) (e : QueueEntry) (rounds : ℕ)
    (hpre : ∀ p ∈ pre, p.rounds ≠ rounds) (he : e.rounds = rounds) :
    (pre ++ e :: post).find? (fun p => p.rounds == rounds) = some e := by
  induction pre with
  | nil => simp [List.find?_cons_of_pos, he]
  | cons a tl ih =>
    rw [List.cons_append, List.find?_cons_of_neg]
    · exact ih (fun p hp => hpre p (List.mem_cons_of_mem a hp))
    · simpa using hpre a (List.mem_cons_self a tl)

/-- C4: a `join` whose rounds value matches a waiting entry pairs the caller
with the oldest such entry: exactly that entry is removed from the queue,
the fresh room's game holds the prior waiter on the LEFT slot and the caller
on the RIGHT slot, and both connections are sent a `start_game` frame with
the same room and their own side. -/
theorem claim_C4 (st : ServerState) (ch : ConnId) (nickname token : String) (rounds : ℕ)
    (room : String) (coin : Bool) (r : ℚ)
    (pre post : List QueueEntry) (e : QueueEntry)
    (hsplit : st.waiting_players = pre ++ e :: post)
    (hpre : ∀ p ∈ pre, p.rounds ≠ rounds)
    (he : e.rounds = rounds)
    (hroom : st.gm.active_games.lookup room = none) :
    (PongConsumer.receive_join st ch nickname token rounds room coin r).1.waiting_players
      = pre ++ post
  ∧ (∃ g : PongGame,
      (PongConsumer.receive_join st ch nickname token rounds room coin
          r).1.gm.active_games.lookup room = some g
      ∧ g.left_player = some e.channel ∧ g.right_player = some ch)
  ∧ (PongConsumer.receive_join st ch nickname token rounds room coin r).2
      = [(e.channel, OutMsg.start_game
            ("Game starting between " ++ e.nickname ++ " and " ++ nickname)
            room rounds false Side.left),
         (ch, OutMsg.start_game
            ("Game starting between " ++ e.nickname ++ " and " ++ nickname)
            room rounds false Side.right)] := by
  have hfind : st.waiting_players.find? (fun p => p.rounds == rounds) = some e := by
    rw [hsplit]
    exact find?_rounds_first pre post e rounds hpre he
  have herase : st.waiting_players.erase e = pre ++ post := by
    rw [hsplit, List.erase_append_right, List.erase_cons_head]
    intro hmem
    exact hpre e hmem he
  have hupd : ∀ g : PongGame, GMState.updGame st.gm.active_games room g
      = st.gm.active_games := fun g => updGame_lookup_none _ _ _ hroom
  have hi1 : (PongGame.init room rounds coin r).is_running = false := rfl
  have hi2 : (PongGame.init room rounds coin r).left_player = none := rfl
  have hi3 : (PongGame.init room rounds coin r).right_player = none := rfl
  unfold PongConsumer.receive_join
  rw [hfind]
  refine ⟨?_, ?_, ?_⟩
  · simp [herase]
  · by_cases hrun : truthyStr (some e.channel) = true ∧ truthyStr (some ch) = true
    · simp [GameManager.create_game, hroom, GameManager.add_player_to_game,
        lookup_cons_self, updGame_cons_self _ _ _ _ hroom, GameManager.start_game,
        PongGame.add_player, PongGame.start, hi1, hi2, hi3, hupd, hrun]
    · simp [GameManager.create_game, hroom, GameManager.add_player_to_game,
        lookup_cons_self, updGame_cons_self _ _ _ _ hroom, GameManager.start_game,
        PongGame.add_player, PongGame.start, hi1, hi2, hi3, hupd, hrun]
  · simp

/-- Witness for C4: with `"A"` waiting at rounds 3, a `join {rounds: 3}` from
`"B"` empties the queue, seats `"A"` LEFT and `"B"` RIGHT in the fresh room,
and sends both `start_game` frames. -/
theorem claim_C4_witness :
    (PongConsumer.receive_join c4State "B" "bob" "tok2" 3 "roomX" true 0).1.waiting_players
      = []
  ∧ (∃ g : PongGame,
      (PongConsumer.receive_join c4State "B" "bob" "tok2" 3 "roomX" true
          0).1.gm.active_games.lookup "roomX" = some g
      ∧ g.left_player = some c4Entry.channel ∧ g.right_player = some "B")
  ∧ (PongConsumer.receive_join c4State "B" "bob" "tok2" 3 "roomX" true 0).2
      = [(c4Entry.channel, OutMsg.start_game
            ("Game starting between " ++ c4Entry.nickname ++ " and " ++ "bob")
            "roomX" 3 false Side.left),
         ("B", OutMsg.start_game
            ("Game starting between " ++ c4Entry.nickname ++ " and " ++ "bob")
            "roomX" 3 false Side.right)] :=
  claim_C4 c4State "B" "bob" "tok2" 3 "roomX" true 0 [] [] c4Entry rfl
    (by simp) rfl rfl

theorem lookup_updGame (l : List (String × PongGame)) (room : String) (g g0 : PongGame)
    (h : l.lookup room = some g0) :
    (GMState.updGame l room g).lookup room = some g := by
  induction l with
  | nil => simp [List.lookup] at h
  | cons a tl ih =>
    obtain ⟨k, w⟩ := a
    by_cases hk : k = room
    · subst hk
      have he : (if ((k, w) : String × PongGame).1 = k then ((k, g) : String × PongGame)
          else (k, w)) = (k, g) := if_pos rfl
      unfold GMState.updGame
      rw [List.map_cons, he]
      simp [List.lookup]
    · have hb : (room == k) = false := by simp [Ne.symm hk]
      have hne : (if ((k, w) : String × PongGame).1 = room
          then ((room, g) : String × PongGame) else (k, w)) = (k, w) := if_neg hk
      unfold GMState.updGame at ih ⊢
      rw [List.map_cons, hne]
      rw [List.lookup] at h ⊢
      simp only [hb] at h ⊢
      exact ih h

/-- C6 (counterexample): after `"b"` disconnects from the running match in
`c6State`, the remaining player `"a"` does receive `opponent_left`, but the
match is NOT terminated: the game survives in the manager with
`is_running = true` and one empty slot, the `game_loop` guard still holds,
and one more frame of simulation ends the game and makes the sync loop emit
a `game_over` frame — refuting both "the simulation loop terminates" and "no
`game_over` frame is emitted". -/
theorem claim_C6_counterexample :
    (PongConsumer.disconnect c6State "b").2
      = [("a", OutMsg.opponent_left "Your opponent has disconnected.")]
  ∧ (PongConsumer.disconnect c6State "b").1.gm.active_games.lookup "g1"
      = some { c6Game with right_player := none }
  ∧ PongGame.game_loop_continues { c6Game with right_player := none } = true
  ∧ game_sync_emission
      (PongGame.update (1/60) 1 0 (fun _ => 1) (fun _ => 0)
        { c6Game with right_player := none })
      = some (OutMsg.game_over 1 Side.left) := by
  refine ⟨rfl, rfl, rfl, ?_⟩
  norm_num [PongGame.update, PongGame.check_game_over, PongGame.reset_ball,
    PongGame.check_paddle_collisions, game_sync_emission, c6Game, PongGame.init]

/-- C6 (amended): when one of the two players of a running non-tournament
match disconnects, the remaining player is sent an `opponent_left` frame,
but the match is not terminated: the game stays registered with the
remaining player still in their slot, and the simulation worker's guard —
which consults only `is_running`, never the player slots — keeps whatever
value the running flag had, so the simulation keeps going and a `game_over`
frame is still broadcast once the game later stops with a winner. -/
theorem claim_C6_amended (st : ServerState) (ch other : ConnId) (room : String)
    (g : PongGame)
    (hnt : st.tournament_players.lookup ch = none)
    (hag : st.active_games.lookup ch = some room)
    (hothers : st.active_games.filter (fun e => e.2 == room && e.1 ≠ ch) = [(other, room)])
    (hpg : st.gm.player_games.lookup ch = some room)
    (hgm : st.gm.active_games.lookup room = some g)
    (hleft : g.left_player = some other)
    (hright : g.right_player = some ch)
    (hdiff : other ≠ ch) :
    ((other, OutMsg.opponent_left "Your opponent has disconnected.")
        ∈ (PongConsumer.disconnect st ch).2)
  ∧ (PongConsumer.disconnect st ch).1.gm.active_games.lookup room
      = some { g with right_player := none }
  ∧ PongGame.game_loop_continues { g with right_player := none } = g.is_running
  ∧ (∀ g2 : PongGame, g2.is_running = false → g2.winner = some Side.left →
       game_sync_emission g2 = some (OutMsg.game_over g2.left_score Side.left)) := by
  have hrm : PongGame.remove_player g ch = ({ g with right_player := none }, true) := by
    unfold PongGame.remove_player
    rw [if_neg, if_pos hright]
    rw [hleft]
    simp [hdiff]
  have hrmf : GameManager.remove_player_from_game st.gm ch
      = ({ active_games := GMState.updGame st.gm.active_games room
              { g with right_player := none }
           player_games := st.gm.player_games.filter (fun p => p.1 ≠ ch) }, true) := by
    unfold GameManager.remove_player_from_game
    simp only [hpg, hgm, hrm]
    simp [hleft]
  unfold PongConsumer.disconnect
  refine ⟨?_, ?_, rfl, ?_⟩
  · simp only [hnt, hag, hothers, hrmf, List.map_cons, List.map_nil]
    simp
  · simp only [hnt, hag, hothers, hrmf]
    exact lookup_updGame st.gm.active_games room _ g hgm
  · intro g2 h1 h2
    simp [game_sync_emission, h1, h2]

/-- Witness for the amended C6: the concrete disconnect of `"b"` from
`c6State`. -/
theorem claim_C6_witness :
    ((("a" : ConnId), OutMsg.opponent_left "Your opponent has disconnected.")
        ∈ (PongConsumer.disconnect c6State "b").2)
  ∧ (PongConsumer.disconnect c6State "b").1.gm.active_games.lookup "g1"
      = some { c6Game with right_player := none }
  ∧ PongGame.game_loop_continues { c6Game with right_player := none }
      = c6Game.is_running :=
  have h := claim_C6_amended c6State "b" "a" "g1" c6Game rfl rfl (by decide) rfl rfl
    rfl rfl (by decide)
  ⟨h.1, h.2.1, h.2.2.1⟩
